import Mathlib

/-!
# Verification of the AQI dashboard pipeline

Shallow embedding of the record cleaners
(`src/feature_engineering/cleaning.py`), the AQI categorization and alerting
(`inference/predictor.py`) and the combined backfill orchestrator
(`src/backfill/combined_backfill.py`), together with theorems settling the
specification claims about them.
-/

namespace AqiPipeline

/-! ## Python value model

Record fields hold Python values.  We model the values the cleaners can
meet: `none` (Python `None`, also standing for an absent key, which
`dict.get` reports as `None`), finite numbers (`int` or `float`, both as
`ℚ`), the float `nan`, and `str` for non-numeric junk (modelled as never
parseable by `float()`/`int()`; numeric inputs are modelled as `num`). -/

inductive PyVal where
  | none
  | num (q : ℚ)
  | nan
  | str (s : String)
deriving DecidableEq

/-- Result of Python `float(v)` when it does not raise: a finite value or
the float `nan`. -/
inductive PyFloat where
  | fin (q : ℚ)
  | nan
deriving DecidableEq

/-- Python `float(v)`; `Option.none` models a raised exception
(`TypeError` for `None`, `ValueError` for non-numeric strings). -/
def pyFloat : PyVal → Option PyFloat
  | .num q => some (.fin q)
  | .nan => some .nan
  | .str _ => Option.none
  | .none => Option.none

/-- Truncation toward zero, as Python `int()` applied to a number
(`int(4.7) = 4`, `int(-4.7) = -4`): `Int.tdiv` of the numerator by the
(positive) denominator truncates toward zero. -/
def ratTrunc (q : ℚ) : ℤ := q.num.tdiv (q.den : ℤ)

/-- Python `int(v)`; `Option.none` models a raised exception
(`int(nan)` raises `ValueError`, as does `int` of junk or `None`). -/
def pyInt : PyVal → Option ℤ
  | .num q => some (ratTrunc q)
  | .nan => Option.none
  | .str _ => Option.none
  | .none => Option.none

/-- CPython `min(a, x)` for a finite first argument `a`: the second item
replaces the running best only when strictly smaller, and every comparison
against `nan` is false, so `min(a, nan) = a`. -/
def pyMin (a : ℚ) : PyFloat → PyFloat
  | .fin q => if q < a then .fin q else .fin a
  | .nan => .fin a

/-- CPython `max(a, x)` for a finite first argument `a`: the second item
replaces the running best only when strictly greater, and every comparison
against `nan` is false, so `max(a, nan) = a`. -/
def pyMax (a : ℚ) : PyFloat → PyFloat
  | .fin q => if a < q then .fin q else .fin a
  | .nan => .fin a

/-- Store a float back into a record field. -/
def PyFloat.toVal : PyFloat → PyVal
  | .fin q => .num q
  | .nan => .nan

/-- The `_is_nan`-guarded replacement `out[k] = None`. -/
def nanToNone : PyVal → PyVal
  | .nan => .none
  | v => v

/-! ## Record cleaners (`src/feature_engineering/cleaning.py`)

A record is modelled as a total map from field names to `PyVal`
(`PyVal.none` for keys that are absent or hold `None`).  Both cleaners act
pointwise on the fields, so they are embedded as a per-field function
mapped over the record. -/

/-- One field of `clean_weather_record`: first the humidity clamp
`max(0, min(100, float(h)))` and the visibility clamp `max(0.0, float(vis))`
(each skipped when the field `is None`, each turning an exception from
`float` into `None`), then the `NaN -> None` replacement pass, which in the
source runs after the clamps. -/
def cleanWeatherField (k : String) (v : PyVal) : PyVal :=
  let v1 :=
    if k = "humidity" then
      if v = .none then v
      else
        match pyFloat v with
        | some x => (pyMax 0 (pyMin 100 x)).toVal
        | Option.none => .none
    else if k = "visibility" then
      if v = .none then v
      else
        match pyFloat v with
        | some x => (pyMax 0 x).toVal
        | Option.none => .none
    else v
  nanToNone v1

/-- `clean_weather_record`. -/
def clean_weather_record (rec : String → PyVal) : String → PyVal :=
  fun k => cleanWeatherField k (rec k)

/-- The pollutant concentration keys clamped to be non-negative. -/
def concKeys : List String := ["co", "no", "no2", "o3", "so2", "pm2_5", "pm10", "nh3"]

/-- One field of `clean_pollutant_record`: the `NaN -> None` replacement
runs first, then concentrations get `max(0.0, float(v))`, then the `aqi`
field is kept as `int(aqi)` when that integer lies in `[1, 5]` and is
dropped to `None` otherwise (exceptions from the conversions become
`None`). -/
def cleanPollutantField (k : String) (v : PyVal) : PyVal :=
  let v1 := nanToNone v
  if concKeys.contains k then
    if v1 = .none then v1
    else
      match pyFloat v1 with
      | some x => (pyMax 0 x).toVal
      | Option.none => .none
  else if k = "aqi" then
    if v1 = .none then v1
    else
      match pyInt v1 with
      | some n => if 1 ≤ n ∧ n ≤ 5 then .num (n : ℚ) else .none
      | Option.none => .none
  else v1

/-- `clean_pollutant_record`. -/
def clean_pollutant_record (rec : String → PyVal) : String → PyVal :=
  fun k => cleanPollutantField k (rec k)

/-- A concrete raw weather record whose `humidity`, `visibility` and
`temperature` fields all hold the float `nan`. -/
def nanWeatherRec : String → PyVal := fun k =>
  if k = "humidity" then .nan
  else if k = "visibility" then .nan
  else if k = "temperature" then .nan
  else .none

/-- A concrete raw pollutant record whose `aqi` field holds the float 4.7. -/
def aqi47Rec : String → PyVal := fun k =>
  if k = "aqi" then .num (4.7 : ℚ) else .none

/-! ## AQI categorization and alerting (`inference/predictor.py`) -/

/-- The dictionary returned by `categorize_aqi`. -/
structure AqiInfo where
  category : String
  level : ℕ
  color : String
  message : String
  is_hazardous : Bool
deriving DecidableEq

/-- `categorize_aqi`: the six-band step function of `predictor.py`. -/
def categorize_aqi (aqi_value : ℚ) : AqiInfo :=
  if aqi_value ≤ 50 then
    ⟨"Good", 1, "#00e400",
      "Air quality is satisfactory, and air pollution poses little or no risk.", false⟩
  else if aqi_value ≤ 100 then
    ⟨"Moderate", 2, "#ffff00",
      "Air quality is acceptable. However, there may be a risk for some people.", false⟩
  else if aqi_value ≤ 150 then
    ⟨"Unhealthy for Sensitive Groups", 3, "#ff7e00",
      "Members of sensitive groups may experience health effects.", false⟩
  else if aqi_value ≤ 200 then
    ⟨"Unhealthy", 4, "#ff0000",
      "Some members of the general public may experience health effects.", true⟩
  else if aqi_value ≤ 300 then
    ⟨"Very Unhealthy", 5, "#8f3f97",
      "Health alert: The risk of health effects is increased for everyone.", true⟩
  else
    ⟨"Hazardous", 6, "#7e0023",
      "⚠️ HEALTH WARNING: Everyone may experience serious health effects.", true⟩

/-- Python `f"{x:.0f}"`: round half to even to an integer and print it in
base ten (exact for the rational inputs used here). -/
def formatDotZeroF (q : ℚ) : String :=
  let f : ℤ := ⌊q⌋
  let n : ℤ :=
    if q - f < 1 / 2 then f
    else if (1 : ℚ) / 2 < q - f then f + 1
    else if f % 2 = 0 then f else f + 1
  toString n

/-- `generate_aqi_alert`: the alert f-string when the category is
hazardous, `None` otherwise. -/
def generate_aqi_alert (aqi_value : ℚ) : Option String :=
  let info := categorize_aqi aqi_value
  if info.is_hazardous then
    some ("🚨 ALERT: Air quality is " ++ info.category ++ " (AQI: " ++
      formatDotZeroF aqi_value ++ "). " ++ info.message)
  else Option.none

/-- The alert string the code produces at aqi = 250. -/
def alert250Str : String :=
  "🚨 ALERT: Air quality is Very Unhealthy (AQI: 250). Health alert: The risk of health effects is increased for everyone."

/-! ### Concrete records used in the claim theorems -/

def humNeg5Rec : String → PyVal := fun k => if k = "humidity" then .num (-5) else .none
def hum150Rec : String → PyVal := fun k => if k = "humidity" then .num 150 else .none
def hum40Rec : String → PyVal := fun k => if k = "humidity" then .num 40 else .none
def coNeg32Rec : String → PyVal := fun k => if k = "co" then .num (-3.2 : ℚ) else .none
def aqi3Rec : String → PyVal := fun k => if k = "aqi" then .num 3 else .none

/-! ## Combined backfill orchestrator (`src/backfill/combined_backfill.py`)

The two network fetchers (`fetch_openmeteo_bulk`,
`fetch_pollutant_historical`) live under `src/api_client/`, which is not
part of this repository snapshot, so they enter the model as oracles: the
bulk weather call is a fixed `Except` value and the per-timestamp
pollutant call a function of the requested timestamp.  Records carry
their `timestamp` plus an opaque `payload` standing for the remaining
fields, which the orchestrator never inspects. -/

/-- A raw weather record, as produced by the bulk weather fetch. -/
structure WRec where
  timestamp : ℤ
  payload : ℕ
deriving DecidableEq

/-- A raw pollutant record, as produced by one historical pollutant call. -/
structure PRec where
  timestamp : ℤ
  payload : ℕ
deriving DecidableEq

/-- Outcome of one `fetch_pollutant_historical` call: the call raised; or
it returned a falsy value or one without a truthy `"timestamp"` (the
`if raw_p and raw_p.get("timestamp")` test fails); or it returned a usable
record. -/
inductive PFetch where
  | raised
  | unusable
  | got (p : PRec)
deriving DecidableEq

/-- `true` iff the fetch outcome contributes a usable record. -/
def PFetch.isGot : PFetch → Bool
  | .got _ => true
  | _ => false

/-- The usable record of a fetch outcome, if any. -/
def PFetch.gotRec : PFetch → Option PRec
  | .got p => some p
  | _ => Option.none

/-- Modelled from the spec: one merged output row.  The spec describes a
row as the weather features of the cleaned weather record (carrying the
weather timestamp) merged with the prefixed pollutant features computed
from the cleaned matched pollutant record and the historical context
passed along; the feature computers (`compute_weather_features`,
`compute_pollutant_features`) are missing from the snapshot and are
described only as "simple arithmetic transforms", so the row records the
inputs handed to them: the weather timestamp, the weather record, the
matched pollutant record (if any) and the historical slice. -/
structure Row where
  timestamp : ℤ
  weather : WRec
  pollutant : Option PRec
  hist : List PRec
deriving DecidableEq

/-- A Python dict with integer keys, as an association list in
key-insertion order: `d[k] = v` overwrites the value at an existing key in
place, otherwise appends the new pair at the end. -/
def dinsert {α : Type} : List (ℤ × α) → ℤ → α → List (ℤ × α)
  | [], k, v => [(k, v)]
  | (k1, v1) :: rest, k, v =>
    if k1 = k then (k1, v) :: rest else (k1, v1) :: dinsert rest k v

/-- Dict lookup `d.get(k)`. -/
def mLookup {α : Type} (m : List (ℤ × α)) (k : ℤ) : Option α :=
  (m.find? (fun kv => kv.1 == k)).map (fun kv => kv.2)

/-- Dict key view `d.keys()`, in insertion order. -/
def mKeys {α : Type} (m : List (ℤ × α)) : List ℤ := m.map (fun kv => kv.1)

/-- CPython `min(ks, key=f)`: the running best is replaced only when the
new item's key is strictly smaller, so the first minimum wins ties;
`Option.none` models the `ValueError` on an empty sequence (unreachable
here: a pollutant record is fetched only while iterating some weather
record). -/
def pyArgmin (f : ℤ → ℤ) : List ℤ → Option ℤ
  | [] => Option.none
  | k :: ks => some (ks.foldl (fun best t => if f t < f best then t else best) k)

/-- `min(weather_by_ts.keys(), key=lambda t: abs(t - p_ts))`. -/
def closestTs (keys : List ℤ) (p_ts : ℤ) : Option ℤ :=
  pyArgmin (fun t => |t - p_ts|) keys

/-- STEP 2, the per-day pollutant fetch loop: returns the usable records
in fetch order, the success count, the failure count, and the timestamps
for which a fetch was issued. -/
def fetchLoop (fp : ℤ → PFetch) : List WRec → List PRec × ℕ × ℕ × List ℤ
  | [] => ([], 0, 0, [])
  | w :: rest =>
    let r := fetchLoop fp rest
    match fp w.timestamp with
    | .got p => (p :: r.1, r.2.1 + 1, r.2.2.1, w.timestamp :: r.2.2.2)
    | .unusable => (r.1, r.2.1, r.2.2.1 + 1, w.timestamp :: r.2.2.2)
    | .raised => (r.1, r.2.1, r.2.2.1 + 1, w.timestamp :: r.2.2.2)

/-- Python `l[a:b]` for natural bounds. -/
def pySlice {α : Type} (l : List α) (a b : ℕ) : List α := (l.take b).drop a

/-- STEP 3, the merge loop over `enumerate(sorted(weather_by_ts.items()))`:
one row per weather item; when a matched pollutant record exists the
historical context is `pollutant_records[max(0, i-10):i]` for `i > 0` and
`[]` for `i = 0`, where `i` is the row's index among the sorted weather
timestamps (`hist_index = i` in the source). -/
def mergeRows (precs : List PRec) (pByTs : List (ℤ × PRec)) (items : List (ℤ × WRec)) :
    List Row :=
  items.enum.map (fun iw =>
    match mLookup pByTs iw.2.1 with
    | some p =>
      { timestamp := iw.2.1, weather := iw.2.2, pollutant := some p,
        hist := if 0 < iw.1 then pySlice precs (iw.1 - 10) iw.1 else [] }
    | Option.none =>
      { timestamp := iw.2.1, weather := iw.2.2, pollutant := Option.none, hist := [] })

/-- Row order used by `sort_values("timestamp")`. -/
def rowLe (a b : Row) : Prop := a.timestamp ≤ b.timestamp

instance instDecRowLe : DecidableRel rowLe := fun a b => Int.decLe a.timestamp b.timestamp

instance instTotalRowLe : IsTotal Row rowLe := ⟨fun a b => Int.le_total a.timestamp b.timestamp⟩

instance instTransRowLe : IsTrans Row rowLe := ⟨fun _ _ _ hab hbc => le_trans hab hbc⟩

/-- Item order used by `sorted(weather_by_ts.items())`; Python compares
the `(timestamp, record)` tuples lexicographically, and the dict keys are
distinct, so the timestamp alone decides. -/
def itemLe (a b : ℤ × WRec) : Prop := a.1 ≤ b.1

instance instDecItemLe : DecidableRel itemLe := fun a b => Int.decLe a.1 b.1

instance instTotalItemLe : IsTotal (ℤ × WRec) itemLe := ⟨fun a b => Int.le_total a.1 b.1⟩

instance instTransItemLe : IsTrans (ℤ × WRec) itemLe := ⟨fun _ _ _ hab hbc => le_trans hab hbc⟩

/-- `drop_duplicates(subset=["timestamp"], keep="last")`: a row is kept
iff no later row carries the same timestamp; kept rows stay in order. -/
def dropDupKeepLast : List Row → List Row
  | [] => []
  | r :: rest =>
    if rest.any (fun s => s.timestamp == r.timestamp) then dropDupKeepLast rest
    else r :: dropDupKeepLast rest

/-- `df.sort_values("timestamp").drop_duplicates(subset=["timestamp"], keep="last")`.
The sort is modelled as a stable sort by timestamp; every timestamp list
arising in this pipeline is duplicate-free, where all comparison sorts
agree. -/
def sortDedup (rows : List Row) : List Row :=
  dropDupKeepLast (List.insertionSort rowLe rows)

/-- The timestamp-keyed weather dict built in the source's STEP 1. -/
def weatherDict (ws : List WRec) : List (ℤ × WRec) :=
  ws.foldl (fun m w => dinsert m w.timestamp w) []

/-- The pollutant dict of the source's matching step: each fetched record
is written at its closest weather timestamp, later records overwriting
earlier ones at the same key. -/
def pollutantDict (keys : List ℤ) (precs : List PRec) : List (ℤ × PRec) :=
  precs.foldl (fun m p =>
    match closestTs keys p.timestamp with
    | some t => dinsert m t p
    | Option.none => m) []

/-- Everything observable about one `run_combined_backfill` call: the
returned DataFrame, what `to_csv` was asked to write (absent when the run
aborted before reaching it), which pollutant fetches were issued, the
success/failure tally of the final log line, and the intermediate
pollutant list, weather keys and matching dict. -/
structure BackfillResult where
  table : List Row
  written : Option (List Row)
  pollutantCalls : List ℤ
  success : ℕ
  failed : ℕ
  reported : Option (ℕ × ℕ)
  pollutantRecords : List PRec
  weatherKeys : List ℤ
  pollutantByTs : List (ℤ × PRec)
deriving DecidableEq

/-- `run_combined_backfill`, with the network as oracles: `fetchWeather`
is the outcome of the single `fetch_openmeteo_bulk` call (`Except.error`
when it raises) and `fp t` the outcome of `fetch_pollutant_historical`
for timestamp `t`.  On a weather-fetch error the source logs and returns
an empty DataFrame at once.  The `if "timestamp" in df.columns` guard of
the source only skips the sort/dedup when no row was built, where
`sortDedup [] = []` agrees. -/
def run_combined_backfill (fetchWeather : Except Unit (List WRec)) (fp : ℤ → PFetch) :
    BackfillResult :=
  match fetchWeather with
  | .error _ => ⟨[], Option.none, [], 0, 0, Option.none, [], [], []⟩
  | .ok weather_records =>
    let weather_by_ts := weatherDict weather_records
    let fl := fetchLoop fp weather_records
    let pollutant_by_ts := pollutantDict (mKeys weather_by_ts) fl.1
    let rows := mergeRows fl.1 pollutant_by_ts (List.insertionSort itemLe weather_by_ts)
    let table := sortDedup rows
    ⟨table, some table, fl.2.2.2, fl.2.1, fl.2.2.1, some (fl.2.1, fl.2.2.1),
      fl.1, mKeys weather_by_ts, pollutant_by_ts⟩

/-! ### Concrete backfill scenarios used in the claim theorems -/

/-- Weather day at timestamp 0. -/
def wA : WRec := ⟨0, 0⟩

/-- Weather day at timestamp 100. -/
def wB : WRec := ⟨100, 1⟩

/-- Pollutant record returned for the second day. -/
def pB : PRec := ⟨100, 0⟩

/-- Pollutant record whose own timestamp (99) is nearest to weather
timestamp 100, fetched while processing weather timestamp 0. -/
def pEarly : PRec := ⟨99, 5⟩

/-- A two-day bulk weather result. -/
def fwOk : Except Unit (List WRec) := .ok [wA, wB]

/-- A bulk weather fetch that raises. -/
def fwErr : Except Unit (List WRec) := .error ()

/-- Pollutant oracle: the day-0 fetch raises, the day-100 fetch succeeds. -/
def fpC : ℤ → PFetch := fun t => if t = 100 then .got pB else .raised

/-- Pollutant oracle: both fetches succeed and both returned records are
nearest to weather timestamp 100. -/
def fpDup : ℤ → PFetch := fun t => if t = 0 then .got pEarly else .got pB

theorem c3_nan_survives_clamp :
    clean_weather_record nanWeatherRec "humidity" = .num 100
  ∧ clean_weather_record nanWeatherRec "visibility" = .num 0
  ∧ clean_weather_record nanWeatherRec "temperature" = .none := by decide

theorem cleanPollutantField_aqi_num (q : ℚ) :
    cleanPollutantField "aqi" (.num q) =
      (if 1 ≤ ratTrunc q ∧ ratTrunc q ≤ 5 then .num ((ratTrunc q : ℤ) : ℚ) else .none) := by
  simp only [cleanPollutantField, nanToNone, pyInt,
    show concKeys.contains "aqi" = false from by decide]
  simp

theorem c4_counterexample :
    clean_pollutant_record aqi47Rec "aqi" = .num 4
  ∧ clean_pollutant_record aqi47Rec "aqi" ≠ .none
  ∧ (4.7 : ℚ) ≠ 4 := by
  have h : clean_pollutant_record aqi47Rec "aqi" = .num 4 := by
    show cleanPollutantField "aqi" (aqi47Rec "aqi") = .num 4
    rw [show aqi47Rec "aqi" = .num (4.7 : ℚ) from by simp [aqi47Rec],
      cleanPollutantField_aqi_num]
    rw [show ratTrunc (4.7 : ℚ) = 4 from by norm_num [ratTrunc]; decide]
    norm_num
  refine ⟨h, by simp [h], by norm_num⟩

theorem c4_amended (rec : String → PyVal) (q : ℚ) (h : rec "aqi" = .num q) :
    clean_pollutant_record rec "aqi" =
      (if 1 ≤ ratTrunc q ∧ ratTrunc q ≤ 5 then .num ((ratTrunc q : ℤ) : ℚ) else .none)
  ∧ (∀ n : ℤ, q = (n : ℚ) → 1 ≤ n → n ≤ 5 → clean_pollutant_record rec "aqi" = .num q) := by
  have hmain : clean_pollutant_record rec "aqi" =
      (if 1 ≤ ratTrunc q ∧ ratTrunc q ≤ 5 then .num ((ratTrunc q : ℤ) : ℚ) else .none) := by
    show cleanPollutantField "aqi" (rec "aqi") = _
    rw [h, cleanPollutantField_aqi_num]
  refine ⟨hmain, ?_⟩
  rintro n rfl h1 h5
  have ht : ratTrunc ((n : ℚ)) = n := by
    simp [ratTrunc, Rat.num_intCast, Rat.den_intCast, Int.tdiv_one]
  rw [hmain, ht, if_pos ⟨h1, h5⟩]

theorem c4_witness : clean_pollutant_record aqi3Rec "aqi" = .num 3 :=
  (c4_amended aqi3Rec 3 (by simp [aqi3Rec])).2 3 (by norm_num) (by decide) (by decide)

theorem pyClamp_eq_min_max (q : ℚ) :
    (pyMax 0 (pyMin 100 (.fin q))).toVal = .num (min 100 (max 0 q)) := by
  rcases lt_or_le q 100 with h1 | h1
  · rw [show pyMin 100 (.fin q) = .fin q from by simp [pyMin, h1]]
    rcases lt_or_le 0 q with h2 | h2
    · rw [show pyMax 0 (.fin q) = .fin q from by simp [pyMax, h2]]
      show PyVal.num q = _
      rw [max_eq_right h2.le, min_eq_right h1.le]
    · rw [show pyMax 0 (.fin q) = .fin 0 from by simp [pyMax, not_lt.mpr h2]]
      show PyVal.num 0 = _
      rw [max_eq_left h2, min_eq_right (by norm_num : (0:ℚ) ≤ 100)]
  · rw [show pyMin 100 (.fin q) = .fin 100 from by simp [pyMin, not_lt.mpr h1]]
    rw [show pyMax 0 (.fin 100) = .fin 100 from by norm_num [pyMax]]
    show PyVal.num 100 = _
    rw [max_eq_right (by linarith : (0:ℚ) ≤ q), min_eq_left h1]

theorem pyMaxZero_eq_max (q : ℚ) : (pyMax 0 (.fin q)).toVal = .num (max 0 q) := by
  rcases lt_or_le 0 q with h | h
  · rw [show pyMax 0 (.fin q) = .fin q from by simp [pyMax, h]]
    show PyVal.num q = _
    rw [max_eq_right h.le]
  · rw [show pyMax 0 (.fin q) = .fin 0 from by simp [pyMax, not_lt.mpr h]]
    show PyVal.num 0 = _
    rw [max_eq_left h]

theorem cleanWeatherField_humidity_num (q : ℚ) :
    cleanWeatherField "humidity" (.num q) = .num (min 100 (max 0 q)) := by
  simp only [cleanWeatherField, pyFloat, pyClamp_eq_min_max]
  simp [nanToNone]

theorem cleanWeatherField_visibility_num (q : ℚ) :
    cleanWeatherField "visibility" (.num q) = .num (max 0 q) := by
  simp only [cleanWeatherField, pyFloat, pyMaxZero_eq_max]
  simp [nanToNone]

theorem cleanPollutantField_conc_num (k : String) (hk : concKeys.contains k = true) (q : ℚ) :
    cleanPollutantField k (.num q) = .num (max 0 q) := by
  simp only [cleanPollutantField, nanToNone, hk, pyFloat, pyMaxZero_eq_max]
  simp

theorem cleanPollutantField_conc_str (k : String) (hk : concKeys.contains k = true) (s : String) :
    cleanPollutantField k (.str s) = .none := by
  simp only [cleanPollutantField, nanToNone, hk, pyFloat]
  simp

/-- C5 -/
theorem c5_clamping :
    (∀ rec : String → PyVal, ∀ q : ℚ, rec "humidity" = .num q →
        clean_weather_record rec "humidity" = .num (min 100 (max 0 q)))
  ∧ (∀ rec : String → PyVal, ∀ s : String, rec "humidity" = .str s →
        clean_weather_record rec "humidity" = .none)
  ∧ (∀ rec : String → PyVal, ∀ q : ℚ, rec "visibility" = .num q →
        clean_weather_record rec "visibility" = .num (max 0 q))
  ∧ (∀ rec : String → PyVal, ∀ q : ℚ, ∀ k, k ∈ concKeys → rec k = .num q →
        clean_pollutant_record rec k = .num (max 0 q))
  ∧ (∀ rec : String → PyVal, ∀ s : String, ∀ k, k ∈ concKeys → rec k = .str s →
        clean_pollutant_record rec k = .none)
  ∧ (∀ q : ℚ, (0:ℚ) ≤ min 100 (max 0 q) ∧ min 100 (max 0 q) ≤ 100)
  ∧ clean_weather_record humNeg5Rec "humidity" = .num 0
  ∧ clean_weather_record hum150Rec "humidity" = .num 100
  ∧ clean_weather_record hum40Rec "humidity" = .num 40
  ∧ clean_pollutant_record coNeg32Rec "co" = .num 0 := by
  have hh : ∀ rec : String → PyVal, ∀ q : ℚ, rec "humidity" = .num q →
      clean_weather_record rec "humidity" = .num (min 100 (max 0 q)) := by
    intro rec q h
    show cleanWeatherField "humidity" (rec "humidity") = _
    rw [h, cleanWeatherField_humidity_num]
  have hcc : ∀ rec : String → PyVal, ∀ q : ℚ, ∀ k, k ∈ concKeys → rec k = .num q →
      clean_pollutant_record rec k = .num (max 0 q) := by
    intro rec q k hk h
    show cleanPollutantField k (rec k) = _
    rw [h, cleanPollutantField_conc_num k (List.elem_iff.mpr hk)]
  refine ⟨hh, ?_, ?_, hcc, ?_, ?_, ?_, ?_, ?_, ?_⟩
  · intro rec s h
    show cleanWeatherField "humidity" (rec "humidity") = _
    rw [h]
    simp [cleanWeatherField, pyFloat, nanToNone]
  · intro rec q h
    show cleanWeatherField "visibility" (rec "visibility") = _
    rw [h, cleanWeatherField_visibility_num]
  · intro rec s k hk h
    show cleanPollutantField k (rec k) = _
    rw [h, cleanPollutantField_conc_str k (List.elem_iff.mpr hk)]
  · intro q
    constructor
    · exact le_min (by norm_num) (le_max_left 0 q)
    · exact min_le_left _ _
  · rw [hh humNeg5Rec (-5) (by simp [humNeg5Rec])]
    norm_num
  · rw [hh hum150Rec 150 (by simp [hum150Rec])]
    norm_num
  · rw [hh hum40Rec 40 (by simp [hum40Rec])]
    norm_num
  · rw [hcc coNeg32Rec (-3.2 : ℚ) "co" (by simp [concKeys]) (by simp [coNeg32Rec])]
    norm_num

theorem c5_witness :
    clean_weather_record hum40Rec "humidity" = .num (min 100 (max 0 40)) :=
  c5_clamping.1 hum40Rec 40 (by simp [hum40Rec])


theorem categorize_aqi_level_eq (a : ℚ) :
    (categorize_aqi a).level =
      if a ≤ 50 then 1 else if a ≤ 100 then 2 else if a ≤ 150 then 3
      else if a ≤ 200 then 4 else if a ≤ 300 then 5 else 6 := by
  unfold categorize_aqi
  split_ifs <;> rfl

theorem categorize_aqi_category_eq (a : ℚ) :
    (categorize_aqi a).category =
      if a ≤ 50 then "Good" else if a ≤ 100 then "Moderate"
      else if a ≤ 150 then "Unhealthy for Sensitive Groups"
      else if a ≤ 200 then "Unhealthy" else if a ≤ 300 then "Very Unhealthy"
      else "Hazardous" := by
  unfold categorize_aqi
  split_ifs <;> rfl

theorem categorize_aqi_hazard_iff (a : ℚ) :
    (categorize_aqi a).is_hazardous = true ↔ 150 < a := by
  unfold categorize_aqi
  split_ifs with h1 h2 h3 h4 h5 <;> simp <;> linarith

/-- C2: `categorize_aqi` is a total deterministic function (a Lean `def` on
`ℚ`) mapping every value into exactly one of the six bands, with boundary
values in the lower band, severity level in `[1, 6]`, and the hazard flag
true exactly when the level is at least 4. -/
theorem c2_categorize_bands (a : ℚ) :
    (1 ≤ (categorize_aqi a).level ∧ (categorize_aqi a).level ≤ 6)
  ∧ ((categorize_aqi a).category = "Good" ↔ a ≤ 50)
  ∧ ((categorize_aqi a).category = "Moderate" ↔ 50 < a ∧ a ≤ 100)
  ∧ ((categorize_aqi a).category = "Unhealthy for Sensitive Groups" ↔ 100 < a ∧ a ≤ 150)
  ∧ ((categorize_aqi a).category = "Unhealthy" ↔ 150 < a ∧ a ≤ 200)
  ∧ ((categorize_aqi a).category = "Very Unhealthy" ↔ 200 < a ∧ a ≤ 300)
  ∧ ((categorize_aqi a).category = "Hazardous" ↔ 300 < a)
  ∧ ((categorize_aqi a).is_hazardous = true ↔ 4 ≤ (categorize_aqi a).level)
  ∧ (categorize_aqi 50).category = "Good"
  ∧ (categorize_aqi (50.01 : ℚ)).category = "Moderate" := by
  refine ⟨?_, ?_, ?_, ?_, ?_, ?_, ?_, ?_, ?_, ?_⟩
  · rw [categorize_aqi_level_eq]
    split_ifs <;> omega
  · rw [categorize_aqi_category_eq]
    split_ifs <;>
      first
        | exact iff_of_true rfl (by linarith)
        | exact iff_of_false (by decide) (by intro hx; linarith)
  · rw [categorize_aqi_category_eq]
    split_ifs <;>
      first
        | exact iff_of_true rfl (by constructor <;> linarith)
        | exact iff_of_false (by decide) (by rintro ⟨hx, hy⟩; linarith)
  · rw [categorize_aqi_category_eq]
    split_ifs <;>
      first
        | exact iff_of_true rfl (by constructor <;> linarith)
        | exact iff_of_false (by decide) (by rintro ⟨hx, hy⟩; linarith)
  · rw [categorize_aqi_category_eq]
    split_ifs <;>
      first
        | exact iff_of_true rfl (by constructor <;> linarith)
        | exact iff_of_false (by decide) (by rintro ⟨hx, hy⟩; linarith)
  · rw [categorize_aqi_category_eq]
    split_ifs <;>
      first
        | exact iff_of_true rfl (by constructor <;> linarith)
        | exact iff_of_false (by decide) (by rintro ⟨hx, hy⟩; linarith)
  · rw [categorize_aqi_category_eq]
    split_ifs <;>
      first
        | exact iff_of_true rfl (by linarith)
        | exact iff_of_false (by decide) (by intro hx; linarith)
  · rw [categorize_aqi_hazard_iff, categorize_aqi_level_eq]
    split_ifs <;>
      first
        | exact iff_of_true (by linarith) (by omega)
        | exact iff_of_false (by linarith) (by omega)
  · rw [categorize_aqi_category_eq]
    norm_num
  · rw [categorize_aqi_category_eq]
    norm_num

theorem formatDotZeroF_ofNat_250 : formatDotZeroF 250 = "250" := by
  have hf : ⌊(250 : ℚ)⌋ = 250 := by norm_num
  simp only [formatDotZeroF, hf]
  norm_num
  decide

theorem categorize_aqi_at_180 :
    categorize_aqi 180 = ⟨"Unhealthy", 4, "#ff0000",
      "Some members of the general public may experience health effects.", true⟩ := by
  unfold categorize_aqi
  norm_num

theorem categorize_aqi_at_250 :
    categorize_aqi 250 = ⟨"Very Unhealthy", 5, "#8f3f97",
      "Health alert: The risk of health effects is increased for everyone.", true⟩ := by
  unfold categorize_aqi
  norm_num

/-- C1, counterexample: at `aqi = 180` the hazard flag is true and an alert
is generated although `180 > 200` is false, refuting the claim that the
hazard flag (and hence alerting) coincides with `aqi > 200`. -/
theorem c1_counterexample :
    (categorize_aqi 180).is_hazardous = true
  ∧ generate_aqi_alert 180 ≠ Option.none
  ∧ ¬ (200 < (180 : ℚ)) := by
  refine ⟨by rw [categorize_aqi_at_180], ?_, by norm_num⟩
  show (if (categorize_aqi 180).is_hazardous = true then
      some ("🚨 ALERT: Air quality is " ++ (categorize_aqi 180).category ++ " (AQI: " ++
        formatDotZeroF 180 ++ "). " ++ (categorize_aqi 180).message)
    else Option.none) ≠ Option.none
  rw [categorize_aqi_at_180]
  simp

/-- C1, amended: `generate_aqi_alert` returns a non-empty string iff the
hazard flag of `categorize_aqi` is true, and that flag holds exactly when
`aqi > 150` (not `aqi > 200` as the spec sentence has it); `aqi = 150`
yields no alert and `aqi = 250` yields an alert containing
"Very Unhealthy". -/
theorem c1_alert_iff_hazard (a : ℚ) :
    ((generate_aqi_alert a).isSome = true ↔ (categorize_aqi a).is_hazardous = true)
  ∧ ((categorize_aqi a).is_hazardous = true ↔ 150 < a)
  ∧ (∀ s : String, generate_aqi_alert a = some s → s ≠ "")
  ∧ generate_aqi_alert 150 = Option.none
  ∧ generate_aqi_alert 250 = some alert250Str
  ∧ (∃ x y : String, alert250Str = x ++ "Very Unhealthy" ++ y) := by
  refine ⟨?_, categorize_aqi_hazard_iff a, ?_, ?_, ?_, ?_⟩
  · cases hb : (categorize_aqi a).is_hazardous <;> simp [generate_aqi_alert, hb]
  · intro s hs he
    simp only [generate_aqi_alert] at hs
    cases hb : (categorize_aqi a).is_hazardous
    · rw [hb] at hs
      simp at hs
    · rw [hb, if_pos rfl] at hs
      have hsv : ("🚨 ALERT: Air quality is " ++ (categorize_aqi a).category ++ " (AQI: " ++
          formatDotZeroF a ++ "). " ++ (categorize_aqi a).message) = s := Option.some.inj hs
      have hlen := congrArg String.length hsv
      rw [he] at hlen
      simp only [String.length_append] at hlen
      have h24 : ("🚨 ALERT: Air quality is " : String).length = 24 := by decide
      have h0 : ("" : String).length = 0 := rfl
      rw [h24, h0] at hlen
      omega
  · have h150 : categorize_aqi 150 = ⟨"Unhealthy for Sensitive Groups", 3, "#ff7e00",
        "Members of sensitive groups may experience health effects.", false⟩ := by
      unfold categorize_aqi
      norm_num
    show (if (categorize_aqi 150).is_hazardous = true then
        some ("🚨 ALERT: Air quality is " ++ (categorize_aqi 150).category ++ " (AQI: " ++
          formatDotZeroF 150 ++ "). " ++ (categorize_aqi 150).message)
      else Option.none) = Option.none
    rw [h150]
    rfl
  · show (if (categorize_aqi 250).is_hazardous = true then
        some ("🚨 ALERT: Air quality is " ++ (categorize_aqi 250).category ++ " (AQI: " ++
          formatDotZeroF 250 ++ "). " ++ (categorize_aqi 250).message)
      else Option.none) = some alert250Str
    rw [categorize_aqi_at_250, formatDotZeroF_ofNat_250]
    rfl
  · exact ⟨"🚨 ALERT: Air quality is ",
      " (AQI: 250). Health alert: The risk of health effects is increased for everyone.",
      by decide⟩

theorem c1_witness :
    alert250Str ≠ "" :=
  (c1_alert_iff_hazard 250).2.2.1 alert250Str ((c1_alert_iff_hazard 250).2.2.2.2.1)

@[simp] theorem isGot_got (p : PRec) : (PFetch.got p).isGot = true := rfl

@[simp] theorem isGot_raised : PFetch.raised.isGot = false := rfl

@[simp] theorem isGot_unusable : PFetch.unusable.isGot = false := rfl

@[simp] theorem gotRec_got (p : PRec) : (PFetch.got p).gotRec = some p := rfl

@[simp] theorem gotRec_raised : PFetch.raised.gotRec = Option.none := rfl

@[simp] theorem gotRec_unusable : PFetch.unusable.gotRec = Option.none := rfl

theorem fetchLoop_spec (fp : ℤ → PFetch) (ws : List WRec) :
    (fetchLoop fp ws).1 = ws.filterMap (fun w => (fp w.timestamp).gotRec)
  ∧ (fetchLoop fp ws).2.1 = (ws.filter (fun w => (fp w.timestamp).isGot)).length
  ∧ (fetchLoop fp ws).2.2.1 = (ws.filter (fun w => !(fp w.timestamp).isGot)).length
  ∧ (fetchLoop fp ws).2.2.2 = ws.map (fun w => w.timestamp)
  ∧ (fetchLoop fp ws).2.1 + (fetchLoop fp ws).2.2.1 = ws.length := by
  induction ws with
  | nil => exact ⟨rfl, rfl, rfl, rfl, rfl⟩
  | cons w rest ih =>
    obtain ⟨ih1, ih2, ih3, ih4, ih5⟩ := ih
    rw [ih2, ih3] at ih5
    cases hw : fp w.timestamp <;>
      refine ⟨?_, ?_, ?_, ?_, ?_⟩ <;>
      simp [fetchLoop, hw, ih1, ih2, ih3, ih4, List.filter_cons, List.filterMap_cons] <;>
      omega

/-- C6: if the bulk weather fetch raises, the run aborts with an empty
table, nothing handed to `to_csv`, no pollutant fetch issued and no tally
reported; otherwise one pollutant fetch is issued per weather day, a
raising or unusable fetch only increments the failure count and
contributes no record (the day is skipped, the loop continues through all
days), and the final tally of successes and failures, which sum to the
number of days, is reported. -/
theorem c6_failure_semantics (fw : Except Unit (List WRec)) (fp : ℤ → PFetch) :
    (∀ e : Unit, fw = .error e →
        (run_combined_backfill fw fp).table = []
      ∧ (run_combined_backfill fw fp).written = Option.none
      ∧ (run_combined_backfill fw fp).pollutantCalls = []
      ∧ (run_combined_backfill fw fp).reported = Option.none)
  ∧ (∀ ws : List WRec, fw = .ok ws →
        (run_combined_backfill fw fp).pollutantCalls = ws.map (fun w => w.timestamp)
      ∧ (run_combined_backfill fw fp).pollutantRecords =
          ws.filterMap (fun w => (fp w.timestamp).gotRec)
      ∧ (run_combined_backfill fw fp).success =
          (ws.filter (fun w => (fp w.timestamp).isGot)).length
      ∧ (run_combined_backfill fw fp).failed =
          (ws.filter (fun w => !(fp w.timestamp).isGot)).length
      ∧ (run_combined_backfill fw fp).success + (run_combined_backfill fw fp).failed
          = ws.length
      ∧ (run_combined_backfill fw fp).reported =
          some ((run_combined_backfill fw fp).success,
                (run_combined_backfill fw fp).failed)) := by
  constructor
  · rintro e rfl
    exact ⟨rfl, rfl, rfl, rfl⟩
  · rintro ws rfl
    obtain ⟨h1, h2, h3, h4, h5⟩ := fetchLoop_spec fp ws
    exact ⟨h4, h1, h2, h3, h5, rfl⟩

theorem c6_witness :
    (run_combined_backfill fwErr fpC).pollutantCalls = []
  ∧ (run_combined_backfill fwOk fpC).success + (run_combined_backfill fwOk fpC).failed = 2 :=
  ⟨((c6_failure_semantics fwErr fpC).1 () rfl).2.2.1,
   ((c6_failure_semantics fwOk fpC).2 [wA, wB] rfl).2.2.2.2.1⟩

/-- C7, code bug: in the two-day run where the day-0 pollutant fetch
fails and the day-100 fetch returns `pB`, the fetched-record list is
`[pB]`, so the records prior to the matched record `pB` of the
timestamp-100 row form the empty list; yet the row is handed `[pB]` — its
own matched record — as "historical context", because the source slices
`pollutant_records` with the row's index among sorted weather timestamps
(`hist_index = i`) instead of the record's index within
`pollutant_records`. -/
theorem c7_history_misaligned :
    (run_combined_backfill fwOk fpC).pollutantRecords = [pB]
  ∧ (run_combined_backfill fwOk fpC).table =
      [⟨0, wA, Option.none, []⟩, ⟨100, wB, some pB, [pB]⟩]
  ∧ ([pB] : List PRec) ≠ [] := by
  refine ⟨by decide, by decide, by decide⟩

theorem mLookup_dinsert {α : Type} (m : List (ℤ × α)) (k k' : ℤ) (v : α) :
    mLookup (dinsert m k v) k' = if k' = k then some v else mLookup m k' := by
  induction m with
  | nil =>
    by_cases h : k' = k
    · subst h
      simp [dinsert, mLookup]
    · simp [dinsert, mLookup, h, Ne.symm h]
  | cons kv rest ih =>
    obtain ⟨k1, v1⟩ := kv
    by_cases h1 : k1 = k
    · subst h1
      by_cases h2 : k' = k1
      · subst h2
        simp [dinsert, mLookup]
      · simp [dinsert, mLookup, h2, Ne.symm h2]
    · by_cases h2 : k' = k1
      · subst h2
        simp [dinsert, mLookup, h1, fun h => h1 (Eq.symm h)]
      · simp only [dinsert, if_neg h1]
        simp only [mLookup, List.find?] at ih ⊢
        rw [show (k1 == k') = false from beq_false_of_ne (fun h => h2 (Eq.symm h))]
        exact ih

theorem mKeys_dinsert {α : Type} (m : List (ℤ × α)) (k : ℤ) (v : α) :
    mKeys (dinsert m k v) = if k ∈ mKeys m then mKeys m else mKeys m ++ [k] := by
  induction m with
  | nil => simp [dinsert, mKeys]
  | cons kv rest ih =>
    obtain ⟨k1, v1⟩ := kv
    by_cases h1 : k1 = k
    · subst h1
      simp [dinsert, mKeys]
    · simp only [dinsert, if_neg h1, mKeys, List.map_cons] at ih ⊢
      rw [ih]
      have hne : ¬ k = k1 := fun h => h1 (Eq.symm h)
      by_cases h2 : k ∈ rest.map (fun kv => kv.1)
      · simp [h2, List.mem_cons, hne]
      · simp [h2, List.mem_cons, hne]

theorem mem_mKeys_dinsert {α : Type} (m : List (ℤ × α)) (k t : ℤ) (v : α) :
    t ∈ mKeys (dinsert m k v) ↔ t = k ∨ t ∈ mKeys m := by
  rw [mKeys_dinsert]
  split_ifs with h
  · constructor
    · exact fun ht => Or.inr ht
    · rintro (rfl | ht)
      · exact h
      · exact ht
  · simp [List.mem_append]
    tauto

theorem nodup_mKeys_dinsert {α : Type} (m : List (ℤ × α)) (k : ℤ) (v : α)
    (h : (mKeys m).Nodup) : (mKeys (dinsert m k v)).Nodup := by
  rw [mKeys_dinsert]
  split_ifs with hk
  · exact h
  · simp [List.nodup_append, h, hk]

theorem weatherDict_go_mem (ws : List WRec) : ∀ (m : List (ℤ × WRec)) (t : ℤ),
    t ∈ mKeys (ws.foldl (fun m w => dinsert m w.timestamp w) m) ↔
      t ∈ ws.map (fun w => w.timestamp) ∨ t ∈ mKeys m := by
  induction ws with
  | nil => simp
  | cons w rest ih =>
    intro m t
    rw [List.foldl_cons, ih, mem_mKeys_dinsert, List.map_cons, List.mem_cons]
    tauto

theorem weatherDict_go_nodup (ws : List WRec) : ∀ (m : List (ℤ × WRec)),
    (mKeys m).Nodup → (mKeys (ws.foldl (fun m w => dinsert m w.timestamp w) m)).Nodup := by
  induction ws with
  | nil => exact fun m h => h
  | cons w rest ih => exact fun m h => ih _ (nodup_mKeys_dinsert m w.timestamp w h)

theorem weatherDict_mem (ws : List WRec) (t : ℤ) :
    t ∈ mKeys (weatherDict ws) ↔ t ∈ ws.map (fun w => w.timestamp) := by
  rw [weatherDict, weatherDict_go_mem]
  simp [mKeys]

theorem weatherDict_nodup (ws : List WRec) : (mKeys (weatherDict ws)).Nodup :=
  weatherDict_go_nodup ws [] (by simp [mKeys])

theorem pollutantDict_go_lookup (keys : List ℤ) (precs : List PRec) :
    ∀ (m : List (ℤ × PRec)) (t : ℤ),
      mLookup (precs.foldl (fun m p =>
          match closestTs keys p.timestamp with
          | some u => dinsert m u p
          | Option.none => m) m) t =
        (match (precs.filter
            (fun p => closestTs keys p.timestamp == some t)).getLast? with
         | some p => some p
         | Option.none => mLookup m t) := by
  induction precs with
  | nil => intro m t; rfl
  | cons p rest ih =>
    intro m t
    rw [List.foldl_cons, ih]
    by_cases hp : closestTs keys p.timestamp = some t
    · rw [List.filter_cons, if_pos (by simp [hp])]
      cases hl : rest.filter (fun p => closestTs keys p.timestamp == some t) with
      | nil =>
        rw [hp]
        simp [mLookup_dinsert]
      | cons q l =>
        rw [List.getLast?_cons_cons]
        cases hgl : (q :: l).getLast? with
        | none =>
          have h2 := (List.getLast?_isSome (l := q :: l)).mpr (List.cons_ne_nil q l)
          rw [hgl] at h2
          simp at h2
        | some x => rfl
    · rw [List.filter_cons, if_neg (by simp [hp])]
      cases hl : (rest.filter (fun p => closestTs keys p.timestamp == some t)).getLast? with
      | some x => rfl
      | none =>
        show mLookup (match closestTs keys p.timestamp with
          | some u => dinsert m u p
          | Option.none => m) t = mLookup m t
        cases hc : closestTs keys p.timestamp with
        | none => rfl
        | some u =>
          rw [mLookup_dinsert, if_neg (fun h => hp (by rw [hc, h]))]

theorem dropDupKeepLast_sublist (l : List Row) : List.Sublist (dropDupKeepLast l) l := by
  induction l with
  | nil => exact List.Sublist.refl []
  | cons r rest ih =>
    rw [dropDupKeepLast]
    split_ifs with h
    · exact ih.cons r
    · exact ih.cons₂ r

theorem mem_sortDedup (rows : List Row) (r : Row) (h : r ∈ sortDedup rows) : r ∈ rows := by
  have h1 : r ∈ List.insertionSort rowLe rows :=
    (dropDupKeepLast_sublist (List.insertionSort rowLe rows)).subset h
  exact (List.mem_insertionSort rowLe).mp h1

theorem mergeRows_pollutant (precs : List PRec) (pByTs : List (ℤ × PRec))
    (items : List (ℤ × WRec)) (r : Row) (hr : r ∈ mergeRows precs pByTs items) :
    r.pollutant = mLookup pByTs r.timestamp := by
  obtain ⟨iw, hiw, rfl⟩ := List.mem_map.mp hr
  cases h : mLookup pByTs iw.2.1 <;> simp [h]

/-- C10: in the matching step each weather timestamp holds at most one
pollutant record, namely the last-fetched record whose nearest weather
timestamp it is (earlier such records are overwritten and end up matched
to no row), and every merged row's pollutant record is exactly the
matching dict's entry for the row's timestamp. -/
theorem c10_nearest_match_last_wins (fw : Except Unit (List WRec)) (fp : ℤ → PFetch)
    (ws : List WRec) (hw : fw = .ok ws) :
    (∀ t : ℤ, mLookup (run_combined_backfill fw fp).pollutantByTs t =
        ((run_combined_backfill fw fp).pollutantRecords.filter
          (fun p => closestTs (run_combined_backfill fw fp).weatherKeys p.timestamp
            == some t)).getLast?)
  ∧ (∀ r ∈ (run_combined_backfill fw fp).table,
      r.pollutant = mLookup (run_combined_backfill fw fp).pollutantByTs r.timestamp) := by
  subst hw
  constructor
  · intro t
    show mLookup (pollutantDict (mKeys (weatherDict ws)) (fetchLoop fp ws).1) t =
      ((fetchLoop fp ws).1.filter
        (fun p => closestTs (mKeys (weatherDict ws)) p.timestamp == some t)).getLast?
    rw [pollutantDict, pollutantDict_go_lookup]
    cases hgl : ((fetchLoop fp ws).1.filter
        (fun p => closestTs (mKeys (weatherDict ws)) p.timestamp == some t)).getLast? with
    | none => rfl
    | some x => rfl
  · intro r hr
    have hm : r ∈ mergeRows (fetchLoop fp ws).1
        (pollutantDict (mKeys (weatherDict ws)) (fetchLoop fp ws).1)
        (List.insertionSort itemLe (weatherDict ws)) := mem_sortDedup _ r hr
    exact mergeRows_pollutant _ _ _ r hm

theorem c10_witness :
    mLookup (run_combined_backfill fwOk fpDup).pollutantByTs 100 =
      ((run_combined_backfill fwOk fpDup).pollutantRecords.filter
        (fun p => closestTs (run_combined_backfill fwOk fpDup).weatherKeys p.timestamp
          == some 100)).getLast? :=
  (c10_nearest_match_last_wins fwOk fpDup [wA, wB] rfl).1 100

theorem pairwise_ne_dropDupKeepLast (l : List Row) :
    (dropDupKeepLast l).Pairwise (fun a b => a.timestamp ≠ b.timestamp) := by
  induction l with
  | nil => exact List.Pairwise.nil
  | cons r rest ih =>
    rw [dropDupKeepLast]
    split_ifs with h
    · exact ih
    · refine List.Pairwise.cons ?_ ih
      intro s hs he
      apply h
      rw [List.any_eq_true]
      exact ⟨s, (dropDupKeepLast_sublist rest).subset hs, by simp [he.symm]⟩

theorem dropDupKeepLast_eq_self (l : List Row)
    (h : l.Pairwise (fun a b => a.timestamp ≠ b.timestamp)) : dropDupKeepLast l = l := by
  induction l with
  | nil => rfl
  | cons r rest ih =>
    rw [List.pairwise_cons] at h
    have hno : ¬ rest.any (fun s => s.timestamp == r.timestamp) = true := by
      intro hany
      rw [List.any_eq_true] at hany
      obtain ⟨s, hs, hbeq⟩ := hany
      exact h.1 s hs (beq_iff_eq.mp hbeq).symm
    rw [dropDupKeepLast, if_neg hno, ih h.2]

theorem any_filter_false {P Q : Row → Bool} (l : List Row)
    (h : l.any P = false) : (l.filter Q).any P = false := by
  rw [← Bool.not_eq_true] at h ⊢
  intro hany
  apply h
  rw [List.any_eq_true] at hany ⊢
  obtain ⟨s, hs, hP⟩ := hany
  exact ⟨s, (List.mem_filter.mp hs).1, hP⟩

theorem dropDupKeepLast_append_singleton (l : List Row) (r : Row) :
    dropDupKeepLast (l ++ [r]) =
      dropDupKeepLast (l.filter (fun s => !(s.timestamp == r.timestamp))) ++ [r] := by
  induction l with
  | nil => simp [dropDupKeepLast]
  | cons x l ih =>
    rw [List.cons_append, dropDupKeepLast, List.filter_cons]
    by_cases hx : x.timestamp = r.timestamp
    · rw [if_pos (by
        rw [List.any_eq_true]
        exact ⟨r, by simp, by simp [hx]⟩)]
      rw [show (!(x.timestamp == r.timestamp)) = false from by simp [hx]]
      rw [if_neg (by simp)]
      exact ih
    · have hrx : (r.timestamp == x.timestamp) = false :=
        beq_false_of_ne (fun hh => hx hh.symm)
      have hsplit : ((l ++ [r]).any (fun s => s.timestamp == x.timestamp))
          = (l.any (fun s => s.timestamp == x.timestamp)) := by
        rw [List.any_append]
        simp [hrx]
      rw [show (!(x.timestamp == r.timestamp)) = true from by simp [hx]]
      rw [if_pos rfl]
      by_cases hl : l.any (fun s => s.timestamp == x.timestamp) = true
      · rw [if_pos (by rw [hsplit]; exact hl), ih]
        obtain ⟨s, hs, hbeq⟩ := List.any_eq_true.mp hl
        have hkeep : (l.filter (fun s => !(s.timestamp == r.timestamp))).any
            (fun s => s.timestamp == x.timestamp) = true := by
          rw [List.any_eq_true]
          refine ⟨s, List.mem_filter.mpr ⟨hs, ?_⟩, hbeq⟩
          simp only [Bool.not_eq_true']
          exact beq_false_of_ne (fun hh => hx ((beq_iff_eq.mp hbeq).symm.trans hh))
        rw [dropDupKeepLast, if_pos hkeep]
      · rw [if_neg (by rw [hsplit]; exact hl), ih]
        rw [Bool.not_eq_true] at hl
        have hkeep := any_filter_false (Q := fun s => !(s.timestamp == r.timestamp)) l hl
        rw [dropDupKeepLast, if_neg (by rw [hkeep]; simp), List.cons_append]

/-- C9: the `sort_values("timestamp") + drop_duplicates(keep="last")` step
is idempotent: applying it twice to any list of rows gives the same table
as applying it once. -/
theorem c9_sortDedup_idempotent (rows : List Row) :
    sortDedup (sortDedup rows) = sortDedup rows := by
  have hs : (List.insertionSort rowLe rows).Sorted rowLe :=
    List.sorted_insertionSort rowLe rows
  have hd : (sortDedup rows).Pairwise rowLe :=
    hs.sublist (dropDupKeepLast_sublist (List.insertionSort rowLe rows))
  have hne : (sortDedup rows).Pairwise (fun a b => a.timestamp ≠ b.timestamp) :=
    pairwise_ne_dropDupKeepLast (List.insertionSort rowLe rows)
  rw [sortDedup, List.Sorted.insertionSort_eq hd, dropDupKeepLast_eq_self _ hne]

theorem mergeRows_map_timestamp (precs : List PRec) (pByTs : List (ℤ × PRec))
    (items : List (ℤ × WRec)) :
    (mergeRows precs pByTs items).map (fun r => r.timestamp) =
      items.map (fun iw => iw.1) := by
  rw [mergeRows, List.map_map,
    List.map_congr_left (g := fun iw : ℕ × ℤ × WRec => iw.2.1)
      (fun iw _ => by
        simp only [Function.comp_apply]
        cases h : mLookup pByTs iw.2.1 <;> simp [h])]
  rw [show (fun iw : ℕ × ℤ × WRec => iw.2.1) =
      ((fun x : ℤ × WRec => x.1) ∘ Prod.snd) from rfl]
  rw [← List.map_map, List.enum_map_snd]

/-- C8: for every run whose weather fetch succeeds, the table handed to
`to_csv` is the returned table; its timestamps are strictly sorted
ascending (so duplicate-free) and are exactly the distinct weather
timestamps (one row per unique weather timestamp); and the dedup step of
the pipeline keeps, of all rows sharing a timestamp, the last-occurring
one. -/
theorem c8_output_invariant (fw : Except Unit (List WRec)) (fp : ℤ → PFetch)
    (ws : List WRec) (hw : fw = .ok ws) :
    (run_combined_backfill fw fp).written = some (run_combined_backfill fw fp).table
  ∧ ((run_combined_backfill fw fp).table.map (fun r => r.timestamp)).Sorted (· < ·)
  ∧ (∀ t : ℤ, t ∈ (run_combined_backfill fw fp).table.map (fun r => r.timestamp) ↔
      t ∈ ws.map (fun w => w.timestamp))
  ∧ (∀ (l : List Row) (r : Row),
      dropDupKeepLast (l ++ [r]) =
        dropDupKeepLast (l.filter (fun s => !(s.timestamp == r.timestamp))) ++ [r]) := by
  subst hw
  have hkeysnd : (mKeys (weatherDict ws)).Nodup := weatherDict_nodup ws
  have hsorted_items : (List.insertionSort itemLe (weatherDict ws)).Pairwise itemLe :=
    List.sorted_insertionSort itemLe (weatherDict ws)
  have hperm : (List.insertionSort itemLe (weatherDict ws)).Perm (weatherDict ws) :=
    List.perm_insertionSort itemLe (weatherDict ws)
  have hmapperm : ((List.insertionSort itemLe (weatherDict ws)).map (fun iw => iw.1)).Perm
      (mKeys (weatherDict ws)) := hperm.map (fun iw => iw.1)
  have hnd : ((List.insertionSort itemLe (weatherDict ws)).map (fun iw => iw.1)).Nodup :=
    hmapperm.nodup_iff.mpr hkeysnd
  have hsorted_keys : ((List.insertionSort itemLe (weatherDict ws)).map
      (fun iw => iw.1)).Pairwise (· ≤ ·) :=
    List.pairwise_map.mpr hsorted_items
  have hlt : ((List.insertionSort itemLe (weatherDict ws)).map
      (fun iw => iw.1)).Pairwise (· < ·) :=
    (hsorted_keys.and hnd).imp (fun h => lt_of_le_of_ne h.1 h.2)
  have hrows : (mergeRows (fetchLoop fp ws).1
      (pollutantDict (mKeys (weatherDict ws)) (fetchLoop fp ws).1)
      (List.insertionSort itemLe (weatherDict ws))).map (fun r => r.timestamp) =
      (List.insertionSort itemLe (weatherDict ws)).map (fun iw => iw.1) :=
    mergeRows_map_timestamp _ _ _
  have hmaple : ((mergeRows (fetchLoop fp ws).1
      (pollutantDict (mKeys (weatherDict ws)) (fetchLoop fp ws).1)
      (List.insertionSort itemLe (weatherDict ws))).map
      (fun r => r.timestamp)).Pairwise (· ≤ ·) := by
    rw [hrows]
    exact hsorted_keys
  have hmapne : ((mergeRows (fetchLoop fp ws).1
      (pollutantDict (mKeys (weatherDict ws)) (fetchLoop fp ws).1)
      (List.insertionSort itemLe (weatherDict ws))).map
      (fun r => r.timestamp)).Nodup := by
    rw [hrows]
    exact hnd
  have hrowsorted : (mergeRows (fetchLoop fp ws).1
      (pollutantDict (mKeys (weatherDict ws)) (fetchLoop fp ws).1)
      (List.insertionSort itemLe (weatherDict ws))).Pairwise rowLe := by
    have h := List.pairwise_map.mp hmaple
    exact h
  have hrowne : (mergeRows (fetchLoop fp ws).1
      (pollutantDict (mKeys (weatherDict ws)) (fetchLoop fp ws).1)
      (List.insertionSort itemLe (weatherDict ws))).Pairwise
      (fun a b => a.timestamp ≠ b.timestamp) := by
    have h := List.pairwise_map.mp hmapne
    exact h
  have hsd : sortDedup (mergeRows (fetchLoop fp ws).1
      (pollutantDict (mKeys (weatherDict ws)) (fetchLoop fp ws).1)
      (List.insertionSort itemLe (weatherDict ws))) =
      mergeRows (fetchLoop fp ws).1
        (pollutantDict (mKeys (weatherDict ws)) (fetchLoop fp ws).1)
        (List.insertionSort itemLe (weatherDict ws)) := by
    rw [sortDedup, List.Sorted.insertionSort_eq hrowsorted,
      dropDupKeepLast_eq_self _ hrowne]
  refine ⟨rfl, ?_, ?_, dropDupKeepLast_append_singleton⟩
  · show ((sortDedup (mergeRows (fetchLoop fp ws).1
        (pollutantDict (mKeys (weatherDict ws)) (fetchLoop fp ws).1)
        (List.insertionSort itemLe (weatherDict ws)))).map
        (fun r => r.timestamp)).Sorted (· < ·)
    rw [hsd, hrows]
    exact hlt
  · intro t
    show t ∈ (sortDedup (mergeRows (fetchLoop fp ws).1
        (pollutantDict (mKeys (weatherDict ws)) (fetchLoop fp ws).1)
        (List.insertionSort itemLe (weatherDict ws)))).map (fun r => r.timestamp) ↔ _
    rw [hsd, hrows, hmapperm.mem_iff]
    exact weatherDict_mem ws t

theorem c8_witness :
    ((run_combined_backfill fwOk fpC).table.map (fun r => r.timestamp)).Sorted (· < ·) :=
  (c8_output_invariant fwOk fpC [wA, wB] rfl).2.1

end AqiPipeline
